import Mathlib

/-!
Verification of the device command/response protocol layer of the
scratch-vm LEGO extensions (PoweredUp / Duplo Train / SPIKE drivers).

The definitions below are a shallow embedding of the JavaScript sources:
`PoweredUpMotor`, `PoweredUp`, `DuploTrainMotor`, `DuploTrain` (the WeDo2
family) and `EV3Motor`, `Spike` (the SPIKE/EV3-style driver).  JavaScript
numbers are modelled as `Int` (or `ℚ` where fractional sensor values
matter); `Uint8Array` slots wrap through `mod 256`; JS bitwise operators
are modelled with explicit 32-bit wrapping where they can differ from
plain arithmetic.
-/

namespace ScratchVM

/-- JS `x & 0xff`: the low byte of an integer.  The implicit ToInt32 wrap
does not change the low 8 bits, so this is exactly `x mod 256` (Lean `%`
on `Int` is Euclidean, hence always in `[0, 256)`). -/
def jsAndFF (x : Int) : Int := x % 256

/-- Storing a JS number into a `Uint8Array` slot (ToUint8): the value
mod 256. -/
def jsToUint8 (x : Int) : Int := x % 256

/-- JS ToInt32: wrap an integer into `[-2^31, 2^31)`. -/
def jsToInt32 (x : Int) : Int := (x + 2 ^ 31) % 2 ^ 32 - 2 ^ 31

/-- JS `x >> k`: ToInt32, then arithmetic shift right, which is floor
division by `2^k` (Lean `/` on `Int` rounds toward minus infinity for a
positive divisor). -/
def jsShr (x : Int) (k : Nat) : Int := jsToInt32 x / 2 ^ k

/-- JS `a && b` on numbers: `a` when `a` is falsy (`0`), else `b`. -/
def jsAndAnd (a b : Int) : Int := if a = 0 then 0 else b

/-- `Math.max(-100, Math.min(value, 100))`, the power clamp of the WeDo2
family motor classes. -/
def clampPower (value : Int) : Int := max (-100) (min value 100)

/-- Reading back a stored byte as an 8-bit two's-complement value. -/
def asSigned8 (b : Int) : Int := if b < 128 then b else b - 256

/-- One outbound transport write: the payload bytes and whether the rate
limiter was applied to it (the `useLimiter` argument of `_send`). -/
structure SendEvent where
  message : List Int
  useLimiter : Bool
deriving DecidableEq

/-- State of one `PoweredUpMotor` / `DuploTrainMotor` (the two classes are
line-for-line identical in the source). -/
structure PoweredUpMotor where
  index : Int
  direction : Int := 1
  power : Int := 100
  isOn : Bool := false
  pendingTimeoutId : Option Nat := none
  pendingTimeoutStartTime : Option Int := none
  pendingTimeoutDelay : Option Int := none
deriving DecidableEq

/-- `set power (value)`: `this._power = Math.max(-100, Math.min(value, 100))`. -/
def PoweredUpMotor.setPower (m : PoweredUpMotor) (value : Int) : PoweredUpMotor :=
  { m with power := clampPower value }

/-- The `setMotorOn()` command bytes:
`[0x08, 0x00, 0x81, connectID, 0x11, 0x51, 0x00, power]`. -/
def PoweredUpMotor.setMotorOnCmd (m : PoweredUpMotor) : List Int :=
  [0x08, 0x00, 0x81, jsToUint8 m.index, 0x11, 0x51, 0x00, jsToUint8 m.power]

/-- The `startBraking()` command bytes: the power slot carries the fixed
brake sentinel `0x7f`. -/
def PoweredUpMotor.startBrakingCmd (m : PoweredUpMotor) : List Int :=
  [0x08, 0x00, 0x81, jsToUint8 m.index, 0x11, 0x51, 0x00, 0x7f]

/-- The `setMotorOff()` command bytes: the power slot carries `0x00`. -/
def PoweredUpMotor.setMotorOffCmd (m : PoweredUpMotor) : List Int :=
  [0x08, 0x00, 0x81, jsToUint8 m.index, 0x11, 0x51, 0x00, 0x00]

/-- `PoweredUp.stopTone()` command bytes: `[PIEZO connect id, STOP_TONE]`. -/
def PoweredUp.stopToneCmd : List Int := [5, 3]

/-- `stopTone()` sends its command with the rate limiter bypassed
(`useLimiter = false` in the source, "because it is only triggered by the
stop button"). -/
def PoweredUp.stopToneEvent : SendEvent := ⟨PoweredUp.stopToneCmd, false⟩

/-- `stopAllMotors()`: for every non-null motor, the motor-off command is
sent with `setMotorOff(false)`, i.e. with the rate limiter bypassed.
Identical in `PoweredUp` and `DuploTrain`. -/
def PoweredUp.stopAllMotorsEvents (motors : List (Option PoweredUpMotor)) : List SendEvent :=
  motors.filterMap (fun m => m.map (fun mm => ⟨mm.setMotorOffCmd, false⟩))

/-- `PoweredUp._stopAll()` (the PROJECT_STOP_ALL handler): nothing when the
peripheral is disconnected; otherwise `stopTone()` and then, once its
promise resolves, `stopAllMotors()`. -/
def PoweredUp.stopAllEvents (connected : Bool) (motors : List (Option PoweredUpMotor)) :
    List SendEvent :=
  if !connected then []
  else PoweredUp.stopToneEvent :: PoweredUp.stopAllMotorsEvents motors

/-- `DuploTrain._stopAll()` (the PROJECT_STOP_ALL handler): nothing when
disconnected; otherwise `stopAllMotors()` only (no sound-stop command). -/
def DuploTrain.stopAllEvents (connected : Bool) (motors : List (Option PoweredUpMotor)) :
    List SendEvent :=
  if !connected then [] else PoweredUp.stopAllMotorsEvents motors

/-- State of one `EV3Motor` of the SPIKE driver. -/
structure EV3Motor where
  index : Nat
  direction : Int := 1
  power : Int := 50
deriving DecidableEq

/-- `Spike.stopAll()` (the PROJECT_STOP_ALL handler): in the source its
entire body (`this.stopAllMotors(); this.stopSound();`) is commented out,
so the handler performs no sends at all, whatever motors are owned. -/
def Spike.stopAllEvents (_motors : List (Option EV3Motor)) : List SendEvent := []

/-- Net effect of `PoweredUp._registerSensorOrMotor` /
`DuploTrain._registerSensorOrMotor` on one attach notification: the type
recorded for the port, whether a motor handle was stored at the port, and
the input-command payloads issued. -/
structure RegEffect where
  portType : Int
  motorCreated : Bool
  sends : List (List Int)
deriving DecidableEq

/-- `PoweredUp._registerSensorOrMotor(connectID, type)`: records the port
type; stores a motor handle for the motor-type codes MOTOR = 1,
TRAIN_MOTOR = 2, LED_LIGHT = 8.  For every other code the source executes
a bare `return;` at once: the sensor mode-configuration block that follows
it is dead code, so no input command is ever sent. -/
def PoweredUp.registerSensorOrMotor (_connectID ty : Int) : RegEffect :=
  if ty = 1 ∨ ty = 2 ∨ ty = 8 then ⟨ty, true, []⟩
  else ⟨ty, false, []⟩

/-- `DuploTrain._sensorMode(type)`: SPEAKER = 0x2a maps to mode 1,
COLOR = 0x2b to mode 0, anything else to null. -/
def DuploTrain.sensorMode (ty : Int) : Option Int :=
  if ty = 0x2a then some 1
  else if ty = 0x2b then some 0
  else none

/-- `DuploTrain._registerSensorOrMotor(connectID, type)`: records the port
type; stores a motor handle for MOTOR = 0x29; otherwise, when the type has
a known sensor mode, issues the port-input-format command
`[0x0a, 0x00, 0x41, connectID, mode, 0x01, 0x00, 0x00, 0x00, 0x01]`
(notifications enabled), sent through `_send` 100 ms later. -/
def DuploTrain.registerSensorOrMotor (connectID ty : Int) : RegEffect :=
  if ty = 0x29 then ⟨ty, true, []⟩
  else
    match DuploTrain.sensorMode ty with
    | some mode =>
      ⟨ty, false,
        [[0x0a, 0x00, 0x41, jsToUint8 connectID, jsToUint8 mode, 0x01, 0x00, 0x00, 0x00, 0x01]]⟩
    | none => ⟨ty, false, []⟩

/-- Result of the promise-based send pipeline: either a transport write was
performed (the returned promise is the transport's / the pending request's),
or the call resolved immediately with an empty result and wrote nothing. -/
inductive SendOutcome (α : Type)
  | resolvedEmpty : SendOutcome α
  | written : α → SendOutcome α
deriving DecidableEq

/-- `PoweredUp._send(uuid, message, useLimiter)` (identical in `DuploTrain`):
returns `Promise.resolve()` without writing when disconnected; when
`useLimiter` is set and `okayToSend()` declines (its outcome is abstracted
as `limiterOk`, the limiter counter being its only state), likewise; else
performs the BLE write. -/
def PoweredUp.sendFn (connected limiterOk useLimiter : Bool) (message : List Int) :
    SendOutcome (List Int) :=
  if !connected then .resolvedEmpty
  else if useLimiter && !limiterOk then .resolvedEmpty
  else .written message

/-- Result of `Spike.sendJSON`: the updated pending-request table, the
transport write performed (if any), and whether the returned promise is the
already-resolved empty one.  Correlation ids are modelled as naturals,
serialized payloads as an opaque type. -/
structure SpikeSendResult (α : Type) where
  openRequests : List Nat
  written : Option α
  resolvedEmpty : Bool
deriving DecidableEq

/-- `Spike.sendJSON(json, useLimiter)`: resolves empty without writing when
disconnected or when the rate limiter declines; otherwise, when `json.i` is
present, records the id in `_openRequests` and writes, returning the pending
promise; when absent, just writes. -/
def Spike.sendJSON (connected limiterOk useLimiter : Bool) (id : Option Nat)
    (payload : α) (openRequests : List Nat) : SpikeSendResult α :=
  if !connected then ⟨openRequests, none, true⟩
  else if useLimiter && !limiterOk then ⟨openRequests, none, true⟩
  else
    match id with
    | some i => ⟨openRequests ++ [i], some payload, false⟩
    | none => ⟨openRequests, some payload, false⟩

/-- The hub angle triple stored by the SPIKE message handler
(`response.p[8]` is `[yaw, pitch, roll]`). -/
structure SpikeAngle where
  yaw : Int
  pitch : Int
  roll : Int
deriving DecidableEq

/-- The SPIKE sensor fields touched by `parseResponse`. -/
structure SpikeSensors where
  angle : SpikeAngle
  orientation : Int
deriving DecidableEq

/-- A decoded JSON reply, as far as `Spike.parseResponse` inspects it: the
method number `m`, the parameter projections the dispatcher reads, and the
correlation id `i` (ids modelled as naturals). -/
structure SpikeResponse where
  m : Option Int
  pAngle : SpikeAngle
  pOrientation : Option Int
  i : Option Nat
deriving DecidableEq

/-- The SPIKE session state `parseResponse` reads and writes: sensor state,
the pending-request table (`_openRequests`, as the list of outstanding ids)
and, for observability, the ids resolved so far in order. -/
structure SpikeSessionState where
  sensors : SpikeSensors
  openRequests : List Nat
  resolved : List Nat
deriving DecidableEq

/-- The sensor-state part of `Spike.parseResponse`: `m = 0` stores the hub
angle triple, `m = 4` stores the orientation when the event string is a
known orientation (`pOrientation` is the `SpikeOrientation[response.p]`
lookup result); `m = 1, 2, 3` and unknown methods do nothing. -/
def Spike.dispatchSensors (r : SpikeResponse) (sensors : SpikeSensors) : SpikeSensors :=
  match r.m with
  | some 0 => { sensors with angle := r.pAngle }
  | some 4 =>
    match r.pOrientation with
    | some o => { sensors with orientation := o }
    | none => sensors
  | _ => sensors

/-- `Spike.parseResponse(response)`: the method dispatch updates sensor
state; then, when the reply carries an id, the entry is deleted from
`_openRequests` and, when it existed, its promise is resolved. -/
def Spike.parseResponseFn (r : SpikeResponse) (s : SpikeSessionState) : SpikeSessionState :=
  let s1 : SpikeSessionState := { s with sensors := Spike.dispatchSensors r s.sensors }
  match r.i with
  | some id =>
    { s1 with
      openRequests := s1.openRequests.filter (fun j => j ≠ id),
      resolved := if id ∈ s1.openRequests then s1.resolved ++ [id] else s1.resolved }
  | none => s1

/-- The whitespace characters relevant to JS `String.prototype.trim` here. -/
def jsIsWhitespace (c : Char) : Bool :=
  c == ' ' || c == '\t' || c == '\n' || c == '\r'

/-- JS `text.trim()` on a character list. -/
def jsTrim (text : List Char) : List Char :=
  ((text.dropWhile jsIsWhitespace).reverse.dropWhile jsIsWhitespace).reverse

/-- JS `text.split('\r')` on a character list. -/
def splitCR : List Char → List (List Char)
  | [] => [[]]
  | c :: rest =>
    if c = '\r' then [] :: splitCR rest
    else
      match splitCR rest with
      | [] => [[c]]
      | h :: t => (c :: h) :: t

/-- The `forEach` loop of `Spike._onMessage` under its `try`: parse and
dispatch each piece in order; a `JSON.parse` failure throws, so pieces after
it are not processed, the catch logs the raw text (the `Bool` result) and
nothing escapes the handler. -/
def Spike.onMessageGo (parse : List Char → Option SpikeResponse) :
    List (List Char) → SpikeSessionState → SpikeSessionState × Bool
  | [], s => (s, false)
  | p :: rest, s =>
    match parse p with
    | none => (s, true)
    | some r => Spike.onMessageGo parse rest (Spike.parseResponseFn r s)

/-- `Spike._onMessage(params)`: the base64 payload is decoded to text (the
decoding is the abstracted transport boundary; `text` is the decoded
character list), trimmed, split on carriage returns, and each piece parsed
and dispatched.  `parse` abstracts `JSON.parse` composed with reading the
fields the dispatcher uses; `none` models a parse exception. -/
def Spike.onMessage (parse : List Char → Option SpikeResponse)
    (text : List Char) (s : SpikeSessionState) : SpikeSessionState × Bool :=
  Spike.onMessageGo parse (splitCR (jsTrim text)) s

/-- `Spike.get distance`: clamp the stored raw value into `[0, 100]` from
above then below, then round to two decimal places
(`Math.round(100 * value) / 100`; `round` on `ℚ` is `⌊x + 1/2⌋`, exactly
JS `Math.round`).  Raw sensor values are modelled as rationals. -/
def Spike.distanceReporter (raw : ℚ) : ℚ :=
  let v1 : ℚ := if raw > 100 then 100 else raw
  let v2 : ℚ := if v1 < 0 then 0 else v1
  (round (100 * v2) : ℤ) / 100

/-- `Spike.generateCommand(type, byteCommands, allocation)`, translated
byte for byte: note that the source computes header bytes 1 and 6 with the
JS logical `&&` operator (`len >> 8 && 0xFF`, `allocation >> 8 && 0xFF`),
not the bitwise `&`.  `len` is `command.length - 2`, i.e.
`byteCommands.length + 5`. -/
def Spike.generateCommand (ty : Int) (byteCommands : List Int) (allocation : Int) : List Int :=
  let len : Int := (byteCommands.length : Int) + 5
  [jsAndFF len, jsAndAnd (jsShr len 8) 0xFF, 0, 0, ty,
    jsAndFF allocation, jsAndAnd (jsShr allocation 8) 0xFF] ++ byteCommands

/-- The frame header as the source's own doc comment and the spec describe
it (bytes 0-1: command size little-endian; bytes 2-3: zero; byte 4: type;
bytes 5-6: allocation little-endian; bytes 7-n: the opcodes). -/
def Spike.generateCommandSpec (ty : Int) (byteCommands : List Int) (allocation : Int) :
    List Int :=
  let len : Int := (byteCommands.length : Int) + 5
  [len % 256, (len / 256) % 256, 0, 0, ty,
    allocation % 256, (allocation / 256) % 256] ++ byteCommands

/-- The speed/direction normalization at the top of `EV3Motor.turnOnFor`:
when `speed < 0`, negate both speed and the input duration; the direction
byte is `0x100 - speed` for a (then) negative duration, else `speed`; the
duration continues as its absolute value. -/
def ev3Normalize (speed0 n0 : Int) : Int × Int :=
  let sp := if speed0 < 0 then (-speed0, -n0) else (speed0, n0)
  (if sp.2 < 0 then 0x100 - sp.1 else sp.1, |sp.2|)

/-- The ramp-phase computation of `EV3Motor.turnOnFor` (`ramp = 50` ms
each side): `run = n - 2 * 50`; when that is negative, ramp up for
`Math.floor(n / 2)`, run for 0, ramp down for the rest. -/
def ev3RampPhases (n : Int) : Int × Int × Int :=
  if n - 50 * 2 < 0 then (n / 2, 0, n - n / 2)
  else (50, n - 50 * 2, 50)

/-- `EV3Motor._runValues(run)`: a 2-byte little-endian encoding tagged
`0x82` below `0x7fff`, else a 4-byte little-endian encoding tagged `0x83`. -/
def ev3RunValues (run : Int) : List Int :=
  if run < 0x7fff then
    [0x82, jsAndFF run, jsAndFF (jsShr run 8)]
  else
    [0x83, jsAndFF run, jsAndFF (jsShr run 8), jsAndFF (jsShr run 16), jsAndFF (jsShr run 24)]

/-- The opcode byte list assembled by `EV3Motor.turnOnFor` from the
normalized direction byte and duration: `[OPOUTPUT_TIME_SPEED, LAYER,
2^index, ONE_BYTE, dir & 0xff, ONE_BYTE, rampup] ++ runValues(run) ++
[ONE_BYTE, rampdown, BRAKE]`. -/
def ev3BuildBytes (index : Nat) (dirn : Int × Int) : List Int :=
  let port : Int := 2 ^ index
  let phases := ev3RampPhases dirn.2
  [0xAF, 0, port, 0x81, jsAndFF dirn.1, 0x81, phases.1] ++
    ev3RunValues phases.2.1 ++ [0x81, phases.2.2, 1]

/-- `EV3Motor.turnOnFor(milliseconds)`: no command at all when the power is
zero; otherwise the `OPOUTPUT_TIME_SPEED` opcode byte list built from
`speed = power * direction` and the given duration. -/
def EV3Motor.turnOnForBytes (m : EV3Motor) (milliseconds : Int) : Option (List Int) :=
  if m.power = 0 then none
  else some (ev3BuildBytes m.index (ev3Normalize (m.power * m.direction) milliseconds))

/-- The two deferred callbacks a WeDo2-family motor schedules through
`_setNewTimeout`. -/
inductive TimerAction
  | startBraking
  | setMotorOff
deriving DecidableEq

/-- One live `setTimeout` registration: its id, its absolute fire time
(registration time plus delay) and its callback. -/
structure ScheduledTimer where
  id : Nat
  fireAt : Int
  action : TimerAction
deriving DecidableEq

/-- A WeDo2-family motor together with its event-loop context: the current
time, the timer registry (`setTimeout`/`clearTimeout`), a counter producing
fresh timeout ids, and the transport writes performed so far. -/
structure MotorWorld where
  motor : PoweredUpMotor
  now : Int
  nextTimerId : Nat
  timers : List ScheduledTimer
  sends : List SendEvent
deriving DecidableEq

/-- `PoweredUpMotor._clearTimeout()`: when a pending timeout exists,
`clearTimeout` it (remove it from the registry) and null the three pending
fields; otherwise do nothing. -/
def MotorWorld.clearTimeoutFn (w : MotorWorld) : MotorWorld :=
  match w.motor.pendingTimeoutId with
  | none => w
  | some tid =>
    { w with
      timers := w.timers.filter (fun t => t.id ≠ tid),
      motor := { w.motor with
        pendingTimeoutId := none
        pendingTimeoutStartTime := none
        pendingTimeoutDelay := none } }

/-- `PoweredUpMotor._setNewTimeout(callback, delay)`: clear any existing
timeout first, then register a fresh one and record its id, start time and
delay. -/
def MotorWorld.setNewTimeout (w : MotorWorld) (action : TimerAction) (delay : Int) :
    MotorWorld :=
  let w1 := w.clearTimeoutFn
  { w1 with
    timers := w1.timers ++ [⟨w1.nextTimerId, w1.now + delay, action⟩],
    nextTimerId := w1.nextTimerId + 1,
    motor := { w1.motor with
      pendingTimeoutId := some w1.nextTimerId
      pendingTimeoutStartTime := some w1.now
      pendingTimeoutDelay := some delay } }

/-- `PoweredUpMotor.setMotorOn()`: send the motor-on command (with the rate
limiter), set `isOn`, clear any pending timeout. -/
def MotorWorld.setMotorOnFn (w : MotorWorld) : MotorWorld :=
  let w1 : MotorWorld :=
    { w with
      sends := w.sends ++ [⟨w.motor.setMotorOnCmd, true⟩],
      motor := { w.motor with isOn := true } }
  w1.clearTimeoutFn

/-- `PoweredUpMotor.setMotorOnFor(milliseconds)`: clamp the duration below
at 0, turn the motor on, then schedule the deferred `startBraking` that
far in the future (cancelling any previous deferred action). -/
def MotorWorld.setMotorOnFor (w : MotorWorld) (milliseconds : Int) : MotorWorld :=
  (w.setMotorOnFn).setNewTimeout .startBraking (max 0 milliseconds)

/-- Let wall-clock time pass to instant `t` with no timer firing (sound for
any `t` earlier than every registered timer's fire time). -/
def MotorWorld.advanceTo (w : MotorWorld) (t : Int) : MotorWorld := { w with now := t }

/-! Theorems -/

/-- C1 (amended): on `PROJECT_STOP_ALL`, a connected PoweredUp session
first silences the tone and then sends every owned motor's off command,
a connected DuploTrain session sends every owned motor's off command,
and every one of these stop commands bypasses the rate limiter
(`useLimiter = false`); the SPIKE session's handler is a no-op, its body
being commented out in the source. -/
theorem stopAll_bypasses_limiter_c1
    (pum dm : List (Option PoweredUpMotor)) (sm : List (Option EV3Motor)) :
    PoweredUp.stopAllEvents true pum =
      PoweredUp.stopToneEvent :: PoweredUp.stopAllMotorsEvents pum ∧
    DuploTrain.stopAllEvents true dm = PoweredUp.stopAllMotorsEvents dm ∧
    (∀ e ∈ PoweredUp.stopAllEvents true pum, e.useLimiter = false) ∧
    (∀ e ∈ DuploTrain.stopAllEvents true dm, e.useLimiter = false) ∧
    (∀ m : PoweredUpMotor, some m ∈ pum →
      SendEvent.mk m.setMotorOffCmd false ∈ PoweredUp.stopAllEvents true pum) ∧
    (∀ m : PoweredUpMotor, some m ∈ dm →
      SendEvent.mk m.setMotorOffCmd false ∈ DuploTrain.stopAllEvents true dm) ∧
    Spike.stopAllEvents sm = [] := by
  have hoff : ∀ (l : List (Option PoweredUpMotor)) (e : SendEvent),
      e ∈ PoweredUp.stopAllMotorsEvents l → e.useLimiter = false := by
    intro l e he
    rcases List.mem_filterMap.mp he with ⟨a, -, hfa⟩
    cases a with
    | none => simp at hfa
    | some mm =>
      have h2 : SendEvent.mk mm.setMotorOffCmd false = e := Option.some.inj hfa
      rw [← h2]
  have hmem : ∀ (l : List (Option PoweredUpMotor)) (m : PoweredUpMotor), some m ∈ l →
      SendEvent.mk m.setMotorOffCmd false ∈ PoweredUp.stopAllMotorsEvents l := by
    intro l m hm
    exact List.mem_filterMap.mpr ⟨some m, hm, rfl⟩
  have hPU : PoweredUp.stopAllEvents true pum =
      PoweredUp.stopToneEvent :: PoweredUp.stopAllMotorsEvents pum := rfl
  have hDT : DuploTrain.stopAllEvents true dm = PoweredUp.stopAllMotorsEvents dm := rfl
  refine ⟨rfl, rfl, ?_, ?_, ?_, ?_, rfl⟩
  · intro e he
    rw [hPU] at he
    rcases List.mem_cons.mp he with rfl | he
    · rfl
    · exact hoff pum e he
  · intro e he
    rw [hDT] at he
    exact hoff dm e he
  · intro m hm
    rw [hPU]
    exact List.mem_cons.mpr (Or.inr (hmem pum m hm))
  · intro m hm
    rw [hDT]
    exact hmem dm m hm

/-- C1 counterexample: a SPIKE session owning a motor sends no command at
all on `PROJECT_STOP_ALL` — in particular no stop/off command for its owned
motor — because the body of `Spike.stopAll` is commented out. -/
theorem spike_stopAll_sends_nothing_c1_cex :
    Spike.stopAllEvents [some { index := 0, direction := 1, power := 50 }] = [] := rfl

/-- C2 (the code's `&&` where the documented layout needs `&`): at
allocation `0x100`, `generateCommand` emits `0xFF` as header byte 6 where
the little-endian allocation high byte is `0x01`, so the built frame
differs from the documented layout. -/
theorem generateCommand_highbyte_bug_c2 :
    Spike.generateCommand 0x80 [0xA3] 0x100 = [6, 0, 0, 0, 0x80, 0, 0xFF, 0xA3] ∧
    Spike.generateCommandSpec 0x80 [0xA3] 0x100 = [6, 0, 0, 0, 0x80, 0, 0x01, 0xA3] ∧
    Spike.generateCommand 0x80 [0xA3] 0x100 ≠ Spike.generateCommandSpec 0x80 [0xA3] 0x100 := by
  refine ⟨by decide, by decide, by decide⟩

/-- C3 (amended): for every WeDo2-family motor and every value assigned to
its power property, the transmitted motor-on power byte, read back as an
8-bit two's-complement value, is the assigned value clamped into
`[-100, 100]` — so assigning 150 transmits 100 and assigning -150
transmits -100 — and the brake command's power slot always carries `0x7F`
while the off command's carries `0x00`.  (The EV3-family motor of the SPIKE
driver does not clamp: see the counterexample.) -/
theorem wedo2_power_clamped_c3 (m : PoweredUpMotor) (p : Int) :
    asSigned8 (((m.setPower p).setMotorOnCmd).getD 7 0) = clampPower p ∧
    (-100 ≤ clampPower p ∧ clampPower p ≤ 100) ∧
    asSigned8 (((m.setPower 150).setMotorOnCmd).getD 7 0) = 100 ∧
    asSigned8 (((m.setPower (-150)).setMotorOnCmd).getD 7 0) = -100 ∧
    (m.startBrakingCmd).getD 7 0 = 0x7f ∧
    (m.setMotorOffCmd).getD 7 0 = 0 := by
  have hbyte : ∀ q : Int, ((m.setPower q).setMotorOnCmd).getD 7 0 = jsToUint8 (clampPower q) :=
    fun _ => rfl
  have key : ∀ q : Int, asSigned8 (jsToUint8 (clampPower q)) = clampPower q := by
    intro q
    unfold asSigned8 jsToUint8 clampPower
    omega
  have hclamp : ∀ q : Int, -100 ≤ clampPower q ∧ clampPower q ≤ 100 := by
    intro q
    unfold clampPower
    omega
  refine ⟨by rw [hbyte, key], hclamp p, ?_, ?_, rfl, rfl⟩
  · rw [hbyte, key]; rfl
  · rw [hbyte, key]; rfl

/-- C3 counterexample: the `EV3Motor` power setter stores the assigned
value unclamped, so after assigning power 150 the motor-on opcode stream of
`turnOnFor(500)` carries 150 — not 100 — in its speed byte. -/
theorem ev3_power150_transmits150_c3_cex :
    (EV3Motor.turnOnForBytes { index := 0, direction := 1, power := 150 } 500).map
      (fun bytes => bytes.getD 4 0) = some 150 ∧ (150 : Int) ≠ 100 := by
  refine ⟨by decide, by decide⟩

/-- C5: for every non-negative effective run duration `n`, the three ramp
phase durations of `EV3Motor.turnOnFor` sum to `n`; when two full 50 ms
ramps fit (`n ≥ 100`) they are `(50, n - 100, 50)`, and otherwise the
steady run is 0 and `n` splits as `(⌊n / 2⌋, 0, n - ⌊n / 2⌋)`. -/
theorem ev3_rampPhases_c5 (n : Int) (hn : 0 ≤ n) :
    (ev3RampPhases n).1 + (ev3RampPhases n).2.1 + (ev3RampPhases n).2.2 = n ∧
    (100 ≤ n → ev3RampPhases n = (50, n - 100, 50)) ∧
    (n < 100 → ev3RampPhases n = (n / 2, 0, n - n / 2)) := by
  simp only [ev3RampPhases]
  split_ifs with h
  · exact ⟨by show n / 2 + 0 + (n - n / 2) = n; omega,
      fun hc => absurd hc (by omega), fun _ => rfl⟩
  · exact ⟨by show 50 + (n - 50 * 2) + 50 = n; omega,
      fun _ => by norm_num, fun hc => absurd hc (by omega)⟩

/-- Witness for C5 at the concrete duration 70 ms. -/
theorem ev3_rampPhases_c5_witness : ev3RampPhases 70 = (35, 0, 35) :=
  (ev3_rampPhases_c5 70 (by norm_num)).2.2 (by norm_num)

/-- C7: with the limiter enabled, a send through `PoweredUp._send` (the
same code serves `DuploTrain`) or `Spike.sendJSON` on a disconnected
session, or one the rate limiter declines, performs no transport write and
returns an already-resolved empty promise; the pending-request table is
left unchanged. -/
theorem send_dropped_resolves_empty_c7 (connected limiterOk useLimiter : Bool)
    (message : List Int) (id : Option Nat) (payload : List Int) (reqs : List Nat)
    (h : connected = false ∨ (useLimiter = true ∧ limiterOk = false)) :
    PoweredUp.sendFn connected limiterOk useLimiter message = .resolvedEmpty ∧
    Spike.sendJSON connected limiterOk useLimiter id payload reqs =
      ⟨reqs, none, true⟩ := by
  rcases h with rfl | ⟨rfl, rfl⟩
  · exact ⟨rfl, rfl⟩
  · cases connected
    · exact ⟨rfl, rfl⟩
    · exact ⟨rfl, rfl⟩

/-- Witness for C7: a rate-limited send with an id on a connected session. -/
theorem send_dropped_resolves_empty_c7_witness :
    PoweredUp.sendFn true false true [1] = .resolvedEmpty ∧
    Spike.sendJSON true false true (some 7) ([2] : List Int) [5] = ⟨[5], none, true⟩ :=
  send_dropped_resolves_empty_c7 true false true [1] (some 7) [2] [5] (Or.inr ⟨rfl, rfl⟩)

/-- C9 at the failing input: a PoweredUp attach notification for a DISTANCE
sensor (type 35, which has a known mode) stores the port type but sends no
mode-configuration command and creates no motor — the sensor branch is dead
code behind `return;` — while the DuploTrain handler does send the
mode-configuration command for its COLOR sensor (type 0x2b). -/
theorem poweredUp_register_distance_sends_nothing_c9 :
    PoweredUp.registerSensorOrMotor 1 35 = ⟨35, false, []⟩ ∧
    PoweredUp.registerSensorOrMotor 1 34 = ⟨34, false, []⟩ ∧
    DuploTrain.registerSensorOrMotor 1 0x2b =
      ⟨0x2b, false, [[0x0a, 0x00, 0x41, 1, 0, 0x01, 0x00, 0x00, 0x00, 0x01]]⟩ := by
  refine ⟨by decide, by decide, by decide⟩

/-- Reversing the sign of the duration and reversing the direction reach the
same normalized (direction byte, duration) pair, for any nonzero power. -/
lemma ev3Normalize_reverse (p s d : Int) (hp : p ≠ 0) (hs : s = 1 ∨ s = -1) :
    ev3Normalize (p * s) (-d) = ev3Normalize (p * -s) d := by
  have hlt := hp.lt_or_lt
  rcases hs with rfl | rfl
  · rcases hlt with hneg | hpos
    · simp [ev3Normalize, mul_one, mul_neg_one, hneg, hneg.not_lt, neg_lt_zero, neg_neg]
    · simp [ev3Normalize, mul_one, mul_neg_one, hpos, hpos.not_lt, neg_lt_zero, neg_neg]
  · rcases hlt with hneg | hpos
    · simp [ev3Normalize, mul_one, mul_neg_one, hneg, hneg.not_lt, neg_lt_zero, neg_neg]
    · simp [ev3Normalize, mul_one, mul_neg_one, hpos, hpos.not_lt, neg_lt_zero, neg_neg]

/-- C6: for an EV3 motor with nonzero power and direction in `{-1, +1}`,
`turnOnFor(-d)` produces exactly the same opcode byte sequence — direction
byte, ramp and run-duration bytes included — as `turnOnFor(d)` with the
direction flipped. -/
theorem ev3_turnOnFor_reversal_c6 (m : EV3Motor) (d : Int)
    (hp : m.power ≠ 0) (hs : m.direction = 1 ∨ m.direction = -1) :
    m.turnOnForBytes (-d) =
      EV3Motor.turnOnForBytes { m with direction := -m.direction } d := by
  dsimp only [EV3Motor.turnOnForBytes]
  rw [if_neg hp, if_neg hp, ev3Normalize_reverse m.power m.direction d hp hs]

/-- Witness for C6: `turnOnFor(-500)` at direction `+1` matches
`turnOnFor(500)` at direction `-1`. -/
theorem ev3_turnOnFor_reversal_c6_witness :
    EV3Motor.turnOnForBytes { index := 0, direction := 1, power := 50 } (-500) =
      EV3Motor.turnOnForBytes { index := 0, direction := -1, power := 50 } 500 := by
  have h := ev3_turnOnFor_reversal_c6 { index := 0, direction := 1, power := 50 } 500
    (by decide) (Or.inl rfl)
  exact h

/-- Bounds for the rounded-to-two-decimals value of a clamped reading. -/
lemma round_scaled_bounds {x : ℚ} (h0 : 0 ≤ x) (h1 : x ≤ 100) :
    (0 : ℤ) ≤ round (100 * x) ∧ round (100 * x) ≤ 10000 := by
  constructor
  · rw [round_eq]
    exact Int.floor_nonneg.mpr (by linarith)
  · rw [round_eq]
    have h2 : (100 * x + 1 / 2 : ℚ) ≤ 10000 + 1 / 2 := by linarith
    have h3 : ⌊(10000 + 1 / 2 : ℚ)⌋ = 10000 := by
      rw [Int.floor_eq_iff]
      norm_num
    calc ⌊(100 * x + 1 / 2 : ℚ)⌋ ≤ ⌊(10000 + 1 / 2 : ℚ)⌋ := Int.floor_mono h2
      _ = 10000 := h3

/-- C10: for every stored raw distance value, the SPIKE distance reporter
returns a value in `[0, 100]` that is an integer number of hundredths
(rounded to two decimal places); values above 100 report as 100 and
negative values as 0. -/
theorem spike_distance_in_range_c10 (raw : ℚ) :
    (0 ≤ Spike.distanceReporter raw ∧ Spike.distanceReporter raw ≤ 100) ∧
    (∃ k : ℤ, Spike.distanceReporter raw = (k : ℚ) / 100) ∧
    (100 < raw → Spike.distanceReporter raw = 100) ∧
    (raw < 0 → Spike.distanceReporter raw = 0) := by
  set v1 : ℚ := if raw > 100 then 100 else raw with hv1
  set v2 : ℚ := if v1 < 0 then 0 else v1 with hv2
  have hdef : Spike.distanceReporter raw = ((round (100 * v2) : ℤ) : ℚ) / 100 := rfl
  have h0 : 0 ≤ v2 ∧ v2 ≤ 100 := by
    rw [hv2, hv1]
    split_ifs <;> constructor <;> linarith
  refine ⟨?_, ⟨round (100 * v2), hdef⟩, ?_, ?_⟩
  · obtain ⟨hl, hr⟩ := round_scaled_bounds h0.1 h0.2
    rw [hdef]
    constructor
    · exact div_nonneg (by exact_mod_cast hl) (by norm_num)
    · rw [div_le_iff₀ (by norm_num : (0 : ℚ) < 100)]
      calc ((round (100 * v2) : ℤ) : ℚ) ≤ (10000 : ℚ) := by exact_mod_cast hr
        _ = 100 * 100 := by norm_num
  · intro h
    have e1 : v1 = 100 := by rw [hv1]; exact if_pos h
    have e2 : v2 = 100 := by rw [hv2, e1]; norm_num
    rw [hdef, e2]
    have e3 : (100 : ℚ) * 100 = ((10000 : ℤ) : ℚ) := by norm_num
    rw [e3, round_intCast]
    norm_num
  · intro h
    have e1 : v1 = raw := by rw [hv1]; exact if_neg (by linarith)
    have e2 : v2 = 0 := by rw [hv2, e1]; exact if_pos h
    rw [hdef, e2]
    simp

/-- The one intermediate world of the C4 scenario: after `setMotorOnFor(d)`
on a clean world, one brake timer is registered and recorded as pending. -/
lemma setMotorOnFor_clean (w : MotorWorld) (d : Int)
    (htimers : w.timers = []) (hpend : w.motor.pendingTimeoutId = none) :
    w.setMotorOnFor d =
      { motor := { w.motor with
          isOn := true
          pendingTimeoutId := some w.nextTimerId
          pendingTimeoutStartTime := some w.now
          pendingTimeoutDelay := some (max 0 d) },
        now := w.now,
        nextTimerId := w.nextTimerId + 1,
        timers := [⟨w.nextTimerId, w.now + max 0 d, TimerAction.startBraking⟩],
        sends := w.sends ++ [⟨w.motor.setMotorOnCmd, true⟩] } := by
  unfold MotorWorld.setMotorOnFor MotorWorld.setMotorOnFn MotorWorld.setNewTimeout
    MotorWorld.clearTimeoutFn
  simp [hpend, htimers]

/-- C4: for a WeDo2-family motor with no pending deferred action, calling
`setMotorOnFor(d)` schedules one deferred brake at `d` from now; calling
`setMotorOnFor(d2)` again at a time `t2` before that brake fires cancels it
and leaves exactly one pending action — the newly scheduled brake, firing
`d2` after the second call, never at the original `d`. -/
theorem wedo2_single_pending_timeout_c4 (w : MotorWorld) (d d2 t2 : Int)
    (htimers : w.timers = []) (hpend : w.motor.pendingTimeoutId = none)
    (_hbefore : t2 < w.now + max 0 d) :
    (w.setMotorOnFor d).timers =
      [⟨w.nextTimerId, w.now + max 0 d, TimerAction.startBraking⟩] ∧
    (((w.setMotorOnFor d).advanceTo t2).setMotorOnFor d2).timers =
      [⟨w.nextTimerId + 1, t2 + max 0 d2, TimerAction.startBraking⟩] ∧
    (((w.setMotorOnFor d).advanceTo t2).setMotorOnFor d2).motor.pendingTimeoutId =
      some (w.nextTimerId + 1) ∧
    ∀ t ∈ (((w.setMotorOnFor d).advanceTo t2).setMotorOnFor d2).timers,
      t.id ≠ w.nextTimerId ∧ t.fireAt = t2 + max 0 d2 := by
  have hA := setMotorOnFor_clean w d htimers hpend
  have hB : ((w.setMotorOnFor d).advanceTo t2).setMotorOnFor d2 =
      { motor := { w.motor with
          isOn := true
          pendingTimeoutId := some (w.nextTimerId + 1)
          pendingTimeoutStartTime := some t2
          pendingTimeoutDelay := some (max 0 d2) },
        now := t2,
        nextTimerId := w.nextTimerId + 2,
        timers := [⟨w.nextTimerId + 1, t2 + max 0 d2, TimerAction.startBraking⟩],
        sends := (w.sends ++ [⟨w.motor.setMotorOnCmd, true⟩]) ++
          [⟨w.motor.setMotorOnCmd, true⟩] } := by
    rw [hA]
    unfold MotorWorld.advanceTo MotorWorld.setMotorOnFor MotorWorld.setMotorOnFn
      MotorWorld.setNewTimeout MotorWorld.clearTimeoutFn
    simp
    rfl
  refine ⟨by rw [hA], by rw [hB], by rw [hB], ?_⟩
  intro t ht
  rw [hB] at ht
  rcases List.mem_singleton.mp ht with rfl
  exact ⟨by show w.nextTimerId + 1 ≠ w.nextTimerId; omega, rfl⟩

/-- A freshly constructed motor world: no timer registered, nothing pending,
nothing sent. -/
def cleanWorld : MotorWorld :=
  { motor := { index := 0 }, now := 0, nextTimerId := 0, timers := [], sends := [] }

/-- Witness for C4: `setMotorOnFor(500)` at time 0 then `setMotorOnFor(300)`
at time 200 leaves exactly the one new brake timer, firing at 500 = 200 + 300
(and not the first timer, which also aimed at 500 but was cancelled). -/
theorem wedo2_single_pending_timeout_c4_witness :
    (((cleanWorld.setMotorOnFor 500).advanceTo 200).setMotorOnFor 300).timers =
      [⟨1, 500, TimerAction.startBraking⟩] := by
  have h := wedo2_single_pending_timeout_c4 cleanWorld 500 300 200 rfl rfl (by decide)
  simpa using h.2.1

/-- Projection: the pending-request table after `parseResponse` of a reply
carrying id `i` is the table with that id deleted. -/
lemma parseResponseFn_openRequests (r : SpikeResponse) (s : SpikeSessionState) (id : Nat)
    (hi : r.i = some id) :
    (Spike.parseResponseFn r s).openRequests =
      s.openRequests.filter (fun j => j ≠ id) := by
  unfold Spike.parseResponseFn
  rw [hi]

/-- Projection: `parseResponse` of a reply carrying id `i` resolves that id
exactly when it was outstanding. -/
lemma parseResponseFn_resolved (r : SpikeResponse) (s : SpikeSessionState) (id : Nat)
    (hi : r.i = some id) :
    (Spike.parseResponseFn r s).resolved =
      if id ∈ s.openRequests then s.resolved ++ [id] else s.resolved := by
  unfold Spike.parseResponseFn
  rw [hi]

/-- C8: (a) a SPIKE notification holding two carriage-return-delimited JSON
replies is split, and both replies are parsed and dispatched independently:
no error is logged and, when both carry distinct outstanding correlation
ids, both pending-request entries are resolved (in order) and removed;
(b) a notification whose JSON text fails to parse is dropped — the session
state is unchanged, the failure is logged, and the handler returns normally
(no exception escapes). -/
theorem spike_onMessage_crlf_c8 :
    (∀ (parse : List Char → Option SpikeResponse) (text s1 s2 : List Char)
        (r1 r2 : SpikeResponse) (id1 id2 : Nat) (st : SpikeSessionState),
      splitCR (jsTrim text) = [s1, s2] →
      parse s1 = some r1 → parse s2 = some r2 →
      r1.i = some id1 → r2.i = some id2 →
      id1 ∈ st.openRequests → id2 ∈ st.openRequests → id1 ≠ id2 →
      (Spike.onMessage parse text st).2 = false ∧
      (Spike.onMessage parse text st).1.resolved = st.resolved ++ [id1, id2] ∧
      id1 ∉ (Spike.onMessage parse text st).1.openRequests ∧
      id2 ∉ (Spike.onMessage parse text st).1.openRequests) ∧
    (∀ (parse : List Char → Option SpikeResponse) (text p : List Char)
        (rest : List (List Char)) (st : SpikeSessionState),
      splitCR (jsTrim text) = p :: rest → parse p = none →
      Spike.onMessage parse text st = (st, true)) := by
  constructor
  · intro parse text s1 s2 r1 r2 id1 id2 st hsplit h1 h2 hi1 hi2 hm1 hm2 hne
    have hrun : Spike.onMessage parse text st =
        (Spike.parseResponseFn r2 (Spike.parseResponseFn r1 st), false) := by
      unfold Spike.onMessage
      rw [hsplit]
      simp [Spike.onMessageGo, h1, h2]
    have hopen1 : (Spike.parseResponseFn r1 st).openRequests =
        st.openRequests.filter (fun j => j ≠ id1) :=
      parseResponseFn_openRequests r1 st id1 hi1
    have hres1 : (Spike.parseResponseFn r1 st).resolved = st.resolved ++ [id1] := by
      rw [parseResponseFn_resolved r1 st id1 hi1, if_pos hm1]
    have hm2f : id2 ∈ (Spike.parseResponseFn r1 st).openRequests := by
      rw [hopen1]
      exact List.mem_filter.mpr ⟨hm2, by simpa using hne.symm⟩
    have hopen2 : (Spike.parseResponseFn r2 (Spike.parseResponseFn r1 st)).openRequests =
        ((Spike.parseResponseFn r1 st).openRequests).filter (fun j => j ≠ id2) :=
      parseResponseFn_openRequests r2 _ id2 hi2
    have hres2 : (Spike.parseResponseFn r2 (Spike.parseResponseFn r1 st)).resolved =
        st.resolved ++ [id1, id2] := by
      rw [parseResponseFn_resolved r2 _ id2 hi2, if_pos hm2f, hres1, List.append_assoc]
      rfl
    refine ⟨by rw [hrun], by rw [hrun]; exact hres2, ?_, ?_⟩
    · rw [hrun]
      intro hmem
      rw [hopen2, hopen1] at hmem
      have := (List.mem_filter.mp ((List.mem_filter.mp hmem).1)).2
      simp at this
    · rw [hrun]
      intro hmem
      rw [hopen2] at hmem
      have := (List.mem_filter.mp hmem).2
      simp at this
  · intro parse text p rest st hsplit hp
    unfold Spike.onMessage
    rw [hsplit]
    simp [Spike.onMessageGo, hp]

end ScratchVM
